/-
Verification development for the Stellest myopia-prediction repository.

This file gives a shallow embedding, over the rationals, of the core logic of
`model.py` (field parsers, feature builder, training-label rules, model
predict, persistence) and `api_server.py` (serve-time feature construction,
risk-factor scorer, progression-timeline projector, API-level model loading),
and proves or refutes the frozen claims about that logic.

Modelling conventions:
- Python floats are modelled as rationals; `round(x, n)` is modelled as
  rounding the exact rational to n decimal places (exact halves round up in
  the model; no result below depends on a half-way case).
- Python strings are modelled as `List Char`; `str.upper`/`lower`/`strip`/
  `replace`/`split`/`in` are modelled by the list functions below.
- Python `float(s)` is modelled by `pyFloat?`, which covers finite decimal
  literals (sign, digits, decimal point, exponent); non-finite literals such
  as "inf"/"nan" are outside the model and no theorem below depends on them.
- A pandas missing value (NaN) is modelled as `Option.none` / the
  `RawValue.missing` constructor; NaN propagation through arithmetic is
  modelled by `omap2`.
-/
import Mathlib

/-! ## String utilities modelling Python string operations -/

/-- Uppercase every character, modelling Python `str.upper()` on ASCII data. -/
def upperL (s : List Char) : List Char := s.map Char.toUpper

/-- Lowercase every character, modelling Python `str.lower()` on ASCII data. -/
def lowerL (s : List Char) : List Char := s.map Char.toLower

/-- Remove leading and trailing whitespace, modelling Python `str.strip()`. -/
def stripL (s : List Char) : List Char :=
  ((s.dropWhile Char.isWhitespace).reverse.dropWhile Char.isWhitespace).reverse

/-- Substring test, modelling Python `needle in hay`. -/
def containsSub (needle : List Char) : List Char → Bool
  | [] => needle.isEmpty
  | c :: rest => needle.isPrefixOf (c :: rest) || containsSub needle rest

/-- Fuel-indexed worker for `replaceSub`; the fuel bounds the number of steps
so the recursion is structural (each step consumes at least one character). -/
def replaceFuel (needle rep : List Char) : ℕ → List Char → List Char
  | _, [] => []
  | 0, l => l
  | fuel + 1, c :: rest =>
    if needle ≠ [] ∧ needle.isPrefixOf (c :: rest) then
      rep ++ replaceFuel needle rep fuel (rest.drop (needle.length - 1))
    else
      c :: replaceFuel needle rep fuel rest

/-- Replace every non-overlapping occurrence of `needle` (left to right) by
`rep`, modelling Python `hay.replace(needle, rep)` for non-empty needles. -/
def replaceSub (needle rep hay : List Char) : List Char :=
  replaceFuel needle rep hay.length hay

/-- Keep the part of the string before the first occurrence of `needle`,
modelling Python `hay.split(needle)[0]` for non-empty needles. -/
def takeUntilSub (needle : List Char) : List Char → List Char
  | [] => []
  | c :: rest => if needle.isPrefixOf (c :: rest) then [] else c :: takeUntilSub needle rest

/-! ## A model of Python `float()` and of the first-number regular expression -/

/-- Numeric value of a run of decimal digit characters. -/
def digitsToNat (l : List Char) : ℕ := l.foldl (fun a c => 10 * a + (c.toNat - 48)) 0

/-- Split off a leading digit run. -/
def parseDigits (l : List Char) : List Char × List Char :=
  (l.takeWhile Char.isDigit, l.dropWhile Char.isDigit)

/-- Integer representation of a parsed decimal literal with sign `neg`,
mantissa numerator `mant`, `frac` fractional digits and exponent
`(-1)^eneg * expo`; its rational value is given by `ratOfRep`. -/
structure FloatRep where
  neg : Bool
  mant : ℕ
  frac : ℕ
  eneg : Bool
  expo : ℕ
deriving DecidableEq

/-- Rational value denoted by a `FloatRep`. -/
def ratOfRep (f : FloatRep) : ℚ :=
  (if f.neg then -1 else 1) * ((f.mant : ℚ) / 10 ^ f.frac) *
    (if f.eneg then 1 / 10 ^ f.expo else 10 ^ f.expo)

/-- Parse an unsigned mantissa: `digits`, `digits.digits`, `digits.` or
`.digits` (at least one digit overall), returning numerator, number of
fractional digits, and the rest of the string. -/
def parseMantissaN (l : List Char) : Option ((ℕ × ℕ) × List Char) :=
  let ip := (parseDigits l).1
  let r1 := (parseDigits l).2
  match r1 with
  | c :: r2 =>
    if c = '.' then
      let fp := (parseDigits r2).1
      let r3 := (parseDigits r2).2
      if ip.isEmpty && fp.isEmpty then none
      else some ((digitsToNat ip * 10 ^ fp.length + digitsToNat fp, fp.length), r3)
    else if ip.isEmpty then none else some ((digitsToNat ip, 0), c :: r2)
  | [] => if ip.isEmpty then none else some ((digitsToNat ip, 0), [])

/-- Model of Python `float(s)` on finite decimal literals, at the level of
the integer representation: optional whitespace, optional sign, mantissa,
optional exponent; anything else fails (Python raises `ValueError`,
modelled as `none`). -/
def pyFloatRep? (s : List Char) : Option FloatRep :=
  let t := stripL s
  let neg : Bool := match t with
    | c :: _ => c = '-'
    | [] => false
  let t1 : List Char := match t with
    | c :: r => if c = '+' ∨ c = '-' then r else c :: r
    | [] => []
  match parseMantissaN t1 with
  | none => none
  | some (mk, r) =>
    match r with
    | [] => some ⟨neg, mk.1, mk.2, false, 0⟩
    | c :: r2 =>
      if c = 'e' ∨ c = 'E' then
        let eneg : Bool := match r2 with
          | c2 :: _ => c2 = '-'
          | [] => false
        let r3 : List Char := match r2 with
          | c2 :: rr => if c2 = '+' ∨ c2 = '-' then rr else c2 :: rr
          | [] => []
        let ed := (parseDigits r3).1
        let r4 := (parseDigits r3).2
        if ed.isEmpty ∨ ¬ r4.isEmpty then none
        else some ⟨neg, mk.1, mk.2, eneg, digitsToNat ed⟩
      else none

/-- Model of Python `float(s)`, as a rational value. -/
def pyFloat? (s : List Char) : Option ℚ := (pyFloatRep? s).map ratOfRep

/-- Representation of the match of the regular expression `\d+(?:\.\d+)?`
starting at the head of `l` (the head is known to be a digit). -/
def numberAtN (l : List Char) : ℕ × ℕ :=
  let ip := (parseDigits l).1
  let r1 := (parseDigits l).2
  match r1 with
  | c :: r2 =>
    if c = '.' then
      let fp := (parseDigits r2).1
      if fp.isEmpty then (digitsToNat ip, 0)
      else (digitsToNat ip * 10 ^ fp.length + digitsToNat fp, fp.length)
    else (digitsToNat ip, 0)
  | [] => (digitsToNat ip, 0)

/-- First match of `\d+(?:\.\d+)?` in the string, modelling
`re.findall(..., s)[0]`; `none` when the string holds no digit. -/
def firstNumberRep? : List Char → Option (ℕ × ℕ)
  | [] => none
  | c :: rest => if c.isDigit then some (numberAtN (c :: rest)) else firstNumberRep? rest

/-! ## Raw values and the field parsers of `model.py` -/

/-- One raw spreadsheet cell: missing (pandas NaN), a number, or a string. -/
inductive RawValue where
  | missing
  | num (q : ℚ)
  | str (s : List Char)
deriving DecidableEq

/-- Whether a raw value is missing, modelling `pd.isna` / `notna`. -/
def RawValue.isMissing : RawValue → Bool
  | .missing => true
  | _ => false

/-- String pipeline of `MyopiaPredictionModel._extract_age`: uppercase, strip
`YRS`/`YR` suffixes when present, then parse. -/
def ageRep? (s : List Char) : Option FloatRep :=
  let u := upperL s
  if containsSub ("YRS".toList) u || containsSub ("YR".toList) u then
    pyFloatRep? (stripL (replaceSub ("YR".toList) [] (replaceSub ("YRS".toList) [] u)))
  else pyFloatRep? u

/-- Model of `MyopiaPredictionModel._extract_age`: strip `YRS`/`YR` suffixes
and parse; missing or unparsable input gives the missing marker.  For a
numeric raw value, `float(str(q))` round-trips to `q` and `str(q)` never
holds a `YR` token, so the numeric branch returns the number itself. -/
def extract_age : RawValue → Option ℚ
  | .missing => none
  | .num q => some q
  | .str s => (ageRep? s).map ratOfRep

/-- Model of `MyopiaPredictionModel._encode_myopic_parents`: case-insensitive
substring matching on the raw value. -/
def encode_myopic_parents : RawValue → ℚ
  | .missing => 0
  | .num _ => 0
  | .str s =>
    let u := upperL s
    if containsSub ("BOTH".toList) u || containsSub ("MOTHER, FATHER".toList) u
        || containsSub ("FATHER, MOTHER".toList) u then 2
    else if containsSub ("MOTHER".toList) u || containsSub ("FATHER".toList) u
        || containsSub ("ONE".toList) u then 1
    else 0

/-- String pipeline of `MyopiaPredictionModel._extract_hours`: lowercase; if
an `hr` token is present take the first number in the string (falling back
to a direct parse when there is none, as the code does); otherwise parse
directly. -/
def hoursRep? (s : List Char) : Option FloatRep :=
  let l := lowerL s
  if containsSub ("hr".toList) l then
    match firstNumberRep? l with
    | some p => some ⟨false, p.1, p.2, false, 0⟩
    | none => pyFloatRep? l
  else pyFloatRep? l

/-- Model of `MyopiaPredictionModel._extract_hours`: if the lowercased string
holds an `hr` token, take the first number in it; otherwise parse directly;
missing or unparsable input gives the missing marker. -/
def extract_hours : RawValue → Option ℚ
  | .missing => none
  | .num q => some q
  | .str s => (hoursRep? s).map ratOfRep

/-- String pipeline of `MyopiaPredictionModel._extract_diopters`: uppercase,
remove a `DS` suffix when present, truncate at a `DC` token when present,
then parse. -/
def dioptersRep? (s : List Char) : Option FloatRep :=
  let u := upperL s
  let u1 := if containsSub ("DS".toList) u then stripL (replaceSub ("DS".toList) [] u) else u
  let u2 := if containsSub ("DC".toList) u1 then stripL (takeUntilSub ("DC".toList) u1) else u1
  pyFloatRep? u2

/-- Model of `MyopiaPredictionModel._extract_diopters`: missing or a literal
numeric zero gives 0; a `DS` suffix is removed, the string is truncated at a
`DC` token; an unparsable remainder degrades to 0. -/
def extract_diopters : RawValue → ℚ
  | .missing => 0
  | .num q => if q = 0 then 0 else q
  | .str s => ((dioptersRep? s).map ratOfRep).getD 0

/-- String pipeline of `MyopiaPredictionModel._extract_axial_length`:
uppercase, remove an `MM` suffix, strip, then parse. -/
def axialRep? (s : List Char) : Option FloatRep :=
  pyFloatRep? (stripL (replaceSub ("MM".toList) [] (upperL s)))

/-- Model of `MyopiaPredictionModel._extract_axial_length`: strip an `MM`
suffix and parse; missing or unparsable input gives the missing marker. -/
def extract_axial_length : RawValue → Option ℚ
  | .missing => none
  | .num q => some q
  | .str s => (axialRep? s).map ratOfRep

/-! ## Training-side feature builder (`MyopiaPredictionModel._process_features`) -/

/-- One raw training row, with the columns used by the feature builder
(column names follow the renaming in `load_and_preprocess_data`). -/
structure RawRecord where
  age : RawValue
  age_diagnosis : RawValue
  gender : RawValue
  myopic_parents : RawValue
  outdoor_time : RawValue
  screen_time : RawValue
  myopia_control : RawValue
  re_spherical : RawValue
  le_spherical : RawValue
  re_cylinder : RawValue
  le_cylinder : RawValue
  re_axial_length : RawValue
  le_axial_length : RawValue
  wearing_time : RawValue
deriving DecidableEq

/-- NaN-propagating binary operation on possibly-missing numbers, modelling
pandas arithmetic between columns. -/
def omap2 (f : ℚ → ℚ → ℚ) : Option ℚ → Option ℚ → Option ℚ
  | some a, some b => some (f a b)
  | _, _ => none

/-- Gender encoding used at training time:
`df['gender'].map({'M': 1, 'F': 0, 'Male': 1, 'Female': 0})`; any other value
(missing included) maps to NaN. -/
def trainGenderEncode : RawValue → Option ℚ
  | .str s =>
    if s = "M".toList then some 1
    else if s = "F".toList then some 0
    else if s = "Male".toList then some 1
    else if s = "Female".toList then some 0
    else none
  | _ => none

/-- The 15 feature columns of one processed training row, in the order of
`feature_cols` in `train_models`, before the dataframe-level median
imputation (`fillna`) — under the hypotheses used below every entry is
present, so imputation does not apply.  `age_at_diagnosis` is a copy of
`age_diagnosis`; `axial_length_abnormal` and `had_myopia_control` are total
because a pandas comparison or `notna` on NaN yields `False`/`0`, not NaN. -/
def processRow (r : RawRecord) : List (Option ℚ) :=
  let age := extract_age r.age
  let aged := extract_age r.age_diagnosis
  let ysd := omap2 (fun a d => a - d) age aged
  let gender := trainGenderEncode r.gender
  let parents := encode_myopic_parents r.myopic_parents
  let oh := extract_hours r.outdoor_time
  let sh := extract_hours r.screen_time
  let sor := omap2 (fun s o => s / (o + 1/10)) sh oh
  let hmc : ℚ := if r.myopia_control.isMissing then 0 else 1
  let res := extract_diopters r.re_spherical
  let les := extract_diopters r.le_spherical
  let sev : ℚ := |(res + les) / 2|
  let recyl := extract_diopters r.re_cylinder
  let lecyl := extract_diopters r.le_cylinder
  let astig : ℚ := if recyl ≠ 0 ∨ lecyl ≠ 0 then 1 else 0
  let rax := extract_axial_length r.re_axial_length
  let lax := extract_axial_length r.le_axial_length
  let avgax := omap2 (fun a b => (a + b) / 2) rax lax
  let abn : ℚ := match avgax with
    | some a => if a > 49/2 then 1 else 0
    | none => 0
  let wh := extract_hours r.wearing_time
  let comp := wh.map (fun w => min (max (w / 12) 0) 1)
  [age, aged, ysd, gender, some parents, oh, sh, sor, some hmc, some sev,
    some astig, avgax, some abn, wh, comp]

/-! ## Training-label rules of `model.py` -/

/-- Age term of `_calculate_progression_risk`:
`(age < 10) * 2 + ((age >= 10) & (age < 12)) * 1`. -/
def ageRiskTerm (age : ℚ) : ℚ :=
  (if age < 10 then 1 else 0) * 2 + (if 10 ≤ age ∧ age < 12 then 1 else 0)

/-- Screen-time term of `_calculate_progression_risk`: `(screen_hours > 3) * 1`. -/
def screenRiskTerm (sh : ℚ) : ℚ := if sh > 3 then 1 else 0

/-- Outdoor-time term of `_calculate_progression_risk` (subtracted):
`(outdoor_hours > 2) * 1`. -/
def outdoorRiskTerm (oh : ℚ) : ℚ := if oh > 2 then 1 else 0

/-- Severity term of `_calculate_progression_risk`:
`(severity > 3) * 2 + ((severity > 1.5) & (severity <= 3)) * 1`. -/
def severityRiskTerm (sev : ℚ) : ℚ :=
  (if sev > 3 then 1 else 0) * 2 + (if 3/2 < sev ∧ sev ≤ 3 then 1 else 0)

/-- Axial-length term of `_calculate_progression_risk`:
`(avg_axial_length > 24.5) * 2`. -/
def axialRiskTerm (ax : ℚ) : ℚ := (if ax > 49/2 then 1 else 0) * 2

/-- The rule score of `_calculate_progression_risk` (sum of the terms, with
the myopic-parents encoding added directly and the outdoor term subtracted). -/
def risk_score (age mp sh oh sev ax : ℚ) : ℚ :=
  ageRiskTerm age + mp + screenRiskTerm sh - outdoorRiskTerm oh
    + severityRiskTerm sev + axialRiskTerm ax

/-- Risk category from the rule score: `pd.cut(score, bins=[-inf, 2, 4, inf],
labels=[0, 1, 2])`, so score ≤ 2 is Low (0), score ≤ 4 is Medium (1), and
anything above is High (2). -/
def progression_risk_category (s : ℚ) : ℕ :=
  if s ≤ 2 then 0 else if s ≤ 4 then 1 else 2

/-- Model of `_estimate_progression`: multiplicative progression-rate label,
clamped to `[0, 2]` by pandas `clip(0, 2)`. -/
def estimate_progression (age mp sh oh cs : ℚ) : ℚ :=
  let age_factor : ℚ := if age < 10 then 3/2 else if age < 12 then 6/5 else 4/5
  let genetic_factor : ℚ := 1 + mp * (1/5)
  let env_factor : ℚ := 1 + sh / 10 - oh / 10
  let stellest_effect : ℚ := (2/5) * cs
  min (max ((1/2) * age_factor * genetic_factor * env_factor * stellest_effect) 0) 2

/-! ## Serve-side feature construction (`api_server.py` `predict`) -/

/-- The validated request body (`PatientData` in `api_server.py`); the
optional `name`/`qol_score` fields play no role in the feature vector and
are omitted. -/
structure PatientData where
  age : ℚ
  gender : List Char
  age_diagnosis : ℚ
  myopic_parents : List Char
  outdoor_hours : ℚ
  screen_hours : ℚ
  had_myopia_control : Bool
  re_spherical : ℚ
  re_cylinder : ℚ
  le_spherical : ℚ
  le_cylinder : ℚ
  re_axial_length : ℚ
  le_axial_length : ℚ
  wearing_hours : ℚ
deriving DecidableEq

/-- Serve-time gender encoding:
`1 if patient_data.gender.upper() in ["M", "MALE"] else 0`. -/
def serveGenderEncode (g : List Char) : ℚ :=
  if upperL g = "M".toList ∨ upperL g = "MALE".toList then 1 else 0

/-- Serve-time parental-myopia encoding:
`{"None": 0, "One": 1, "Both": 2}.get(value, 0)` — exact, case-sensitive. -/
def serveParentsEncode (mp : List Char) : ℚ :=
  if mp = "None".toList then 0
  else if mp = "One".toList then 1
  else if mp = "Both".toList then 2
  else 0

/-- Serve-time compliance score: `np.clip(wearing_hours / 12, 0, 1)`. -/
def serveCompliance (w : ℚ) : ℚ := min (max (w / 12) 0) 1

/-- The serve-time feature vector built in the `/api/predict` handler, in
the order of the `features` list (lines 220-236 of `api_server.py`). -/
def serveFeatures (p : PatientData) : List ℚ :=
  let genderq := serveGenderEncode p.gender
  let parentsq := serveParentsEncode p.myopic_parents
  let avgsph := (p.re_spherical + p.le_spherical) / 2
  let sev : ℚ := |avgsph|
  let avgax := (p.re_axial_length + p.le_axial_length) / 2
  let ysd := p.age - p.age_diagnosis
  let sor := p.screen_hours / (p.outdoor_hours + 1/10)
  let comp := serveCompliance p.wearing_hours
  let astig : ℚ := if p.re_cylinder ≠ 0 ∨ p.le_cylinder ≠ 0 then 1 else 0
  let abn : ℚ := if avgax > 49/2 then 1 else 0
  [p.age, p.age_diagnosis, ysd, genderq, parentsq, p.outdoor_hours,
    p.screen_hours, sor, if p.had_myopia_control then 1 else 0, sev, astig,
    avgax, abn, p.wearing_hours, comp]

/-! ## Rounding helpers modelling Python `round(x, n)` -/

/-- Round to 2 decimal places, modelling `round(x, 2)`. -/
def round2 (q : ℚ) : ℚ := ((round (100 * q) : ℤ) : ℚ) / 100

/-- Round to 1 decimal place, modelling `round(x, 1)`. -/
def round1 (q : ℚ) : ℚ := ((round (10 * q) : ℤ) : ℚ) / 10

/-! ## The fitted model and `MyopiaPredictionModel.predict` -/

/-- Fitted classifier state: the distinct class labels seen at fit time and
the two prediction functions.  `predict_proba` returns one probability per
class in `classes` (its length is tied to `classes.length` by hypothesis in
the theorems below, mirroring scikit-learn). -/
structure ClassifierModel where
  classes : List ℕ
  proba : List ℚ → List ℚ
  predCat : List ℚ → ℕ

/-- Fitted model state used by `predict`: scaler transform, classifier and
regressor, all operating on the scaled feature space. -/
structure FittedModel where
  scaler : List ℚ → List ℚ
  classifier : ClassifierModel
  regressor : List ℚ → ℚ

/-- Output of `_calculate_stellest_benefit`. -/
structure StellestBenefit where
  without_stellest : ℚ
  with_stellest : ℚ
  reduction_percentage : ℚ
deriving DecidableEq

/-- Model of `_calculate_stellest_benefit(patient_data, current_progression)`:
the compliance score is the last element of the raw (unscaled) feature list
(`patient_data[-1]`, or 1.0 for an empty list); the without-treatment rate
divides by `0.4 * compliance` (by 0.4 alone when compliance ≤ 0). -/
def calculate_stellest_benefit (x : List ℚ) (rate : ℚ) : StellestBenefit :=
  let c : ℚ := match x.getLast? with
    | some v => v
    | none => 1
  let without : ℚ := if c > 0 then rate / ((2/5) * c) else rate / (2/5)
  let pct : ℚ := if without > 0 then (without - rate) / without * 100 else 0
  { without_stellest := round2 without
    with_stellest := round2 rate
    reduction_percentage := round1 pct }

/-- The result dictionary of `MyopiaPredictionModel.predict`. -/
structure PredictionOut where
  risk_category : List Char
  risk_score : ℕ
  prob_low : ℚ
  prob_medium : ℚ
  prob_high : ℚ
  estimated_progression : ℚ
  benefit : StellestBenefit
deriving DecidableEq

/-- The label list `['Low Risk', 'Medium Risk', 'High Risk']`. -/
def risk_labels : List (List Char) :=
  ["Low Risk".toList, "Medium Risk".toList, "High Risk".toList]

/-- Model of `MyopiaPredictionModel.predict`: scale, classify, read the
probability vector at the fixed indices 0, 1, 2 and the label list at the
predicted category; a failing (out-of-range) lookup is a raised
`IndexError`, modelled as `none`.  The progression rate is the regressor
output rounded to 2 decimals — no clamping. -/
def model_predict (m : FittedModel) (x : List ℚ) : Option PredictionOut :=
  let xs := m.scaler x
  let cat := m.classifier.predCat xs
  let probs := m.classifier.proba xs
  let rate := m.regressor xs
  match risk_labels.get? cat, probs.get? 0, probs.get? 1, probs.get? 2 with
  | some lab, some p0, some p1, some p2 =>
    some { risk_category := lab
           risk_score := cat
           prob_low := p0
           prob_medium := p1
           prob_high := p2
           estimated_progression := round2 rate
           benefit := calculate_stellest_benefit x rate }
  | _, _, _, _ => none

/-! ## The risk-factor scorer (`api_server.py` `_calculate_risk_factors`) -/

/-- One entry of the factor list (the formatted description string is
presentation-only and omitted). -/
structure RiskFactor where
  factor : List Char
  score : ℚ
  impact : List Char
deriving DecidableEq

/-- Age contribution of the scorer: 2 below 10, 1 below 12, else 0. -/
def ageScore (age : ℚ) : ℚ := if age < 10 then 2 else if age < 12 then 1 else 0

/-- Genetics contribution of the scorer: 2 for both parents, 1 for one. -/
def geneticsScore (m : ℚ) : ℚ := if m = 2 then 2 else if m = 1 then 1 else 0

/-- Severity contribution of the scorer: 2 above 3 D, 1 above 1.5 D. -/
def severityScore (sev : ℚ) : ℚ := if sev > 3 then 2 else if sev > 3/2 then 1 else 0

/-- Axial-length contribution of the scorer: 2 above 24.5 mm, 1 above 24.0 mm. -/
def axialScore (ax : ℚ) : ℚ := if ax > 49/2 then 2 else if ax > 24 then 1 else 0

/-- Screen-time contribution of the scorer: 1 above 4 h, 0.5 above 3 h. -/
def screenScore (sh : ℚ) : ℚ := if sh > 4 then 1 else if sh > 3 then 1/2 else 0

/-- Outdoor-time contribution of the scorer: 1 below 2 h, else 0. -/
def outdoorScore (oh : ℚ) : ℚ := if oh < 2 then 1 else 0

/-- Compliance contribution of the scorer: 1 below 75 %, 0.5 below 90 %. -/
def complianceFactorScore (c : ℚ) : ℚ :=
  if c < 3/4 then 1 else if c < 9/10 then 1/2 else 0

/-- The factor list built by `_calculate_risk_factors`, with each entry's
score and impact label chosen by the same if/elif chains as the source. -/
def riskFactorList (age m sev ax sh oh c : ℚ) : List RiskFactor :=
  [ if age < 10 then ⟨"Young Age".toList, 2, "High".toList⟩
    else if age < 12 then ⟨"Age".toList, 1, "Medium".toList⟩
    else ⟨"Age".toList, 0, "Low".toList⟩,
    if m = 2 then ⟨"Genetics".toList, 2, "High".toList⟩
    else if m = 1 then ⟨"Genetics".toList, 1, "Medium".toList⟩
    else ⟨"Genetics".toList, 0, "Low".toList⟩,
    if sev > 3 then ⟨"Myopia Severity".toList, 2, "High".toList⟩
    else if sev > 3/2 then ⟨"Myopia Severity".toList, 1, "Medium".toList⟩
    else ⟨"Myopia Severity".toList, 0, "Low".toList⟩,
    if ax > 49/2 then ⟨"Axial Length".toList, 2, "High".toList⟩
    else if ax > 24 then ⟨"Axial Length".toList, 1, "Medium".toList⟩
    else ⟨"Axial Length".toList, 0, "Low".toList⟩,
    if sh > 4 then ⟨"Screen Time".toList, 1, "High".toList⟩
    else if sh > 3 then ⟨"Screen Time".toList, 1/2, "Medium".toList⟩
    else ⟨"Screen Time".toList, 0, "Low".toList⟩,
    if oh < 2 then ⟨"Outdoor Time".toList, 1, "High".toList⟩
    else ⟨"Outdoor Time".toList, 0, "Low".toList⟩,
    if c < 3/4 then ⟨"Treatment Compliance".toList, 1, "High".toList⟩
    else if c < 9/10 then ⟨"Treatment Compliance".toList, 1/2, "Medium".toList⟩
    else ⟨"Treatment Compliance".toList, 0, "Low".toList⟩ ]

/-- Output structure of `_calculate_risk_factors`. -/
structure RiskFactorsOut where
  factors : List RiskFactor
  total_score : ℚ
  max_possible_score : ℚ
  risk_percentage : ℚ
deriving DecidableEq

/-- Model of `_calculate_risk_factors`: the factor list, the sum of its
scores, the fixed reported maximum 10.0, and the percentage
`total / 10 * 100`. -/
def calculate_risk_factors (age m sev ax sh oh c : ℚ) : RiskFactorsOut :=
  let fs := riskFactorList age m sev ax sh oh c
  let t := (fs.map RiskFactor.score).sum
  { factors := fs
    total_score := t
    max_possible_score := 10
    risk_percentage := t / 10 * 100 }

/-! ## The progression-timeline projector (`_calculate_progression_timeline`) -/

/-- One timeline entry (year, projected age, severities, saved diopters). -/
structure TimelineEntry where
  year : ℕ
  projected_age : ℚ
  severity_with_treatment : ℚ
  severity_without_treatment : ℚ
  saved_diopters : ℚ
deriving DecidableEq

/-- One entry of the timeline for a horizon `year`: with-treatment severity
`sev + ap*year`, without-treatment severity `sev + (ap/0.4)*year`, saved
diopters their difference, all rounded to 2 decimals (the projected age to
1 decimal). -/
def timelineEntry (ap age sev : ℚ) (year : ℕ) : TimelineEntry :=
  let projected_severity := sev + ap * year
  let without_treatment_rate := ap / (2/5)
  let projected_without := sev + without_treatment_rate * year
  { year := year
    projected_age := round1 (age + year)
    severity_with_treatment := round2 projected_severity
    severity_without_treatment := round2 projected_without
    saved_diopters := round2 (projected_without - projected_severity) }

/-- Model of `_calculate_progression_timeline`: one entry per horizon year
in `[1, 2, 3, 5]`. -/
def calculate_progression_timeline (ap age sev : ℚ) : List TimelineEntry :=
  [1, 2, 3, 5].map (timelineEntry ap age sev)

/-! ## Model persistence (`save_model` / `load_model` and the API loader) -/

/-- The unit persisted by `save_model`: classifier, regressor, scaler (the
stored feature-importance table plays no role in prediction and is
omitted).  A persisted blob either deserializes to the full model data or
fails; a `joblib` deserialization error and a missing dictionary key are
both modelled as the `none` case. -/
structure ModelBlob where
  classifier : List ℚ → ℕ
  regressor : List ℚ → ℚ
  scaler : List ℚ → List ℚ

/-- Model of `MyopiaPredictionModel.load_model`: a corrupted or mismatched
blob raises (an `Except.error`), a well-formed blob loads as-is. -/
def load_model (blob : Option ModelBlob) : Except (List Char) ModelBlob :=
  match blob with
  | some m => .ok m
  | none => .error ("corrupted or incompatible model file".toList)

/-- Model of the API-level `load_model` in `api_server.py`: when the model
file exists it tries `model.load_model` and, on any exception, falls back
to training a new model from the spreadsheet (`train_result`); when the
file does not exist it trains directly. -/
def api_load_model (path_exists : Bool) (blob : Option ModelBlob)
    (train_result : ModelBlob) : ModelBlob :=
  if path_exists then
    match load_model blob with
    | .ok m => m
    | .error _ => train_result
  else train_result

/-! ## Helper lemmas -/

/-- The scorer's total equals the sum of the seven per-factor score functions. -/
lemma total_score_eq (age m sev ax sh oh c : ℚ) :
    (calculate_risk_factors age m sev ax sh oh c).total_score
      = ageScore age + geneticsScore m + severityScore sev + axialScore ax
        + screenScore sh + outdoorScore oh + complianceFactorScore c := by
  simp only [calculate_risk_factors, riskFactorList, List.map_cons, List.map_nil,
    List.sum_cons, List.sum_nil, apply_ite RiskFactor.score,
    ageScore, geneticsScore, severityScore, axialScore, screenScore, outdoorScore,
    complianceFactorScore]
  ring

/-- The scorer's factor list projects to the seven per-factor score functions. -/
lemma factors_map_score_eq (age m sev ax sh oh c : ℚ) :
    (calculate_risk_factors age m sev ax sh oh c).factors.map RiskFactor.score
      = [ageScore age, geneticsScore m, severityScore sev, axialScore ax,
         screenScore sh, outdoorScore oh, complianceFactorScore c] := by
  simp only [calculate_risk_factors, riskFactorList, List.map_cons, List.map_nil,
    apply_ite RiskFactor.score, ageScore, geneticsScore, severityScore, axialScore,
    screenScore, outdoorScore, complianceFactorScore]

lemma ageScore_le (a : ℚ) : ageScore a ≤ 2 := by
  unfold ageScore
  split_ifs <;> norm_num

lemma geneticsScore_le (m : ℚ) : geneticsScore m ≤ 2 := by
  unfold geneticsScore
  split_ifs <;> norm_num

lemma severityScore_le (s : ℚ) : severityScore s ≤ 2 := by
  unfold severityScore
  split_ifs <;> norm_num

lemma axialScore_le (ax : ℚ) : axialScore ax ≤ 2 := by
  unfold axialScore
  split_ifs <;> norm_num

lemma screenScore_le (sh : ℚ) : screenScore sh ≤ 1 := by
  unfold screenScore
  split_ifs <;> norm_num

lemma outdoorScore_le (oh : ℚ) : outdoorScore oh ≤ 1 := by
  unfold outdoorScore
  split_ifs <;> norm_num

lemma complianceFactorScore_le (c : ℚ) : complianceFactorScore c ≤ 1 := by
  unfold complianceFactorScore
  split_ifs <;> norm_num

lemma ageScore_antitone {a b : ℚ} (h : a ≤ b) : ageScore b ≤ ageScore a := by
  unfold ageScore
  split_ifs <;> norm_num <;> linarith

lemma severityScore_mono {s t : ℚ} (h : s ≤ t) : severityScore s ≤ severityScore t := by
  unfold severityScore
  split_ifs <;> norm_num <;> linarith

lemma axialScore_mono {s t : ℚ} (h : s ≤ t) : axialScore s ≤ axialScore t := by
  unfold axialScore
  split_ifs <;> norm_num <;> linarith

/-- Rounding to 2 decimals is the identity on integer multiples of 1/100. -/
lemma round2_cent (q : ℚ) (h : ∃ k : ℤ, q = (k : ℚ) / 100) : round2 q = q := by
  obtain ⟨k, rfl⟩ := h
  rw [round2, show (100 : ℚ) * ((k : ℚ) / 100) = (k : ℚ) by ring, round_intCast]

/-! ## Claim C4: the parental-myopia encoder -/

/-- C4 counterexample: the claim says every value other than a both-parent
naming, a single-parent mention, or the literal token "one" — unrelated
text and the string "None" included — encodes to 0; but the encoder matches
"ONE" as a substring, so "MONEY" and "None" both encode to 1, not 0. -/
theorem encoder_maps_unrelated_text_to_one :
    encode_myopic_parents (.str ("MONEY".toList)) = 1
    ∧ encode_myopic_parents (.str ("None".toList)) = 1
    ∧ (1 : ℚ) ≠ 0 := by
  refine ⟨by decide, by decide, by norm_num⟩

/-- C4 (amended): the encoder is case-insensitive substring matching on the
raw value: "BOTH", "MOTHER, FATHER" or "FATHER, MOTHER" as a substring give
2, else "MOTHER", "FATHER" or "ONE" as a substring give 1, else (missing
values included) 0.  Consequently "Both" → 2, "Mother" → 1,
"Father, Mother" → 2, missing → 0 and substring-free text → 0 as the claim
says, but text merely containing "one" ("None", "MONEY") encodes to 1, and a
both-parent mention outside the two comma-separated forms ("Mother and
Father") encodes to 1 rather than 2. -/
theorem myopic_parents_substring_encoding :
    encode_myopic_parents .missing = 0
    ∧ encode_myopic_parents (.str ("Both".toList)) = 2
    ∧ encode_myopic_parents (.str ("BOTH myopic".toList)) = 2
    ∧ encode_myopic_parents (.str ("Mother".toList)) = 1
    ∧ encode_myopic_parents (.str ("father".toList)) = 1
    ∧ encode_myopic_parents (.str ("Father, Mother".toList)) = 2
    ∧ encode_myopic_parents (.str ("Mother, Father".toList)) = 2
    ∧ encode_myopic_parents (.str ("One".toList)) = 1
    ∧ encode_myopic_parents (.str ("XYZ".toList)) = 0
    ∧ encode_myopic_parents (.str ("None".toList)) = 1
    ∧ encode_myopic_parents (.str ("MONEY".toList)) = 1
    ∧ encode_myopic_parents (.str ("Mother and Father".toList)) = 1 := by
  refine ⟨by decide, by decide, by decide, by decide, by decide, by decide, by decide,
    by decide, by decide, by decide, by decide, by decide⟩

/-! ## Claim C5: loading persisted model state -/

/-- A concrete freshly-trained model used to witness the API fallback. -/
def freshBlob : ModelBlob :=
  { classifier := fun _ => 0, regressor := fun _ => 0, scaler := fun v => v }

/-- C5 counterexample: loading a corrupted blob raises inside
`MyopiaPredictionModel.load_model`, but the API-level loader catches the
exception and silently falls back to training a new model — the system does
fall back to another source of model state instead of surfacing the failure. -/
theorem api_loader_swallows_load_failure :
    load_model none = Except.error ("corrupted or incompatible model file".toList)
    ∧ api_load_model true none freshBlob = freshBlob := ⟨rfl, rfl⟩

/-- C5 (amended): `MyopiaPredictionModel.load_model` itself is a hard
failure on corrupted state — it propagates an error and never substitutes a
fallback; but the serving layer's `load_model` catches any load exception
and silently falls back to training a fresh model from the raw spreadsheet
(and also trains when the file is absent), so the system as a whole does
fall back to another source of model state. -/
theorem load_model_raises_but_api_falls_back :
    (∀ b, load_model (some b) = Except.ok b)
    ∧ (∃ e, load_model none = Except.error e)
    ∧ (∀ fresh, api_load_model true none fresh = fresh)
    ∧ (∀ b fresh, api_load_model true (some b) fresh = b)
    ∧ (∀ blob fresh, api_load_model false blob fresh = fresh) := by
  refine ⟨fun b => rfl, ⟨_, rfl⟩, fun fresh => rfl, fun b fresh => rfl, fun blob fresh => rfl⟩

/-! ## Claim C6: total score, reported maximum, percentage -/

/-- C6 counterexample: at age 9, both parents myopic, severity 4 D, axial
length 25 mm, 5 h screen, 1 h outdoor and compliance 0.5, every factor takes
its maximal contribution (2+2+2+2+1+1+1) and the total is 11, exceeding the
fixed maximum of 10 that the scorer reports as `max_possible_score` (the
percentage is then 110 %). -/
theorem risk_total_exceeds_reported_max :
    (calculate_risk_factors 9 2 4 25 5 1 (1/2)).total_score = 11
    ∧ (calculate_risk_factors 9 2 4 25 5 1 (1/2)).max_possible_score = 10
    ∧ ¬ ((calculate_risk_factors 9 2 4 25 5 1 (1/2)).total_score
          ≤ (calculate_risk_factors 9 2 4 25 5 1 (1/2)).max_possible_score) := by
  norm_num [calculate_risk_factors, riskFactorList]

/-- C6 (amended): the scorer's total equals the sum of its per-factor
contributions, the reported `max_possible_score` is the constant 10 and the
reported percentage is `total / 10 × 100`, as the claim says; but the
attainable maximum of the total is 11 (2 for age + 2 genetics + 2 severity
+ 2 axial + 1 screen + 1 outdoor + 1 compliance), not 10, so the total can
exceed the reported maximum and the percentage can exceed 100. -/
theorem risk_total_sum_and_bounds (age m sev ax sh oh c : ℚ) :
    (calculate_risk_factors age m sev ax sh oh c).factors.map RiskFactor.score
        = [ageScore age, geneticsScore m, severityScore sev, axialScore ax,
           screenScore sh, outdoorScore oh, complianceFactorScore c]
    ∧ (calculate_risk_factors age m sev ax sh oh c).total_score
        = ageScore age + geneticsScore m + severityScore sev + axialScore ax
          + screenScore sh + outdoorScore oh + complianceFactorScore c
    ∧ (calculate_risk_factors age m sev ax sh oh c).total_score ≤ 11
    ∧ (calculate_risk_factors age m sev ax sh oh c).max_possible_score = 10
    ∧ (calculate_risk_factors age m sev ax sh oh c).risk_percentage
        = (calculate_risk_factors age m sev ax sh oh c).total_score / 10 * 100 := by
  refine ⟨factors_map_score_eq age m sev ax sh oh c, total_score_eq age m sev ax sh oh c,
    ?_, rfl, rfl⟩
  rw [total_score_eq]
  have h1 := ageScore_le age
  have h2 := geneticsScore_le m
  have h3 := severityScore_le sev
  have h4 := axialScore_le ax
  have h5 := screenScore_le sh
  have h6 := outdoorScore_le oh
  have h7 := complianceFactorScore_le c
  linarith

/-! ## Claim C7: the progression-timeline projector -/

/-- C7 counterexample: the claim asserts the returned with-treatment
severity equals `current_severity + annual_progression × year` exactly for
every rate; but the projector rounds every entry to 2 decimals, so for
`annual_progression = 1/3` and `current_severity = 0` the first entry holds
33/100, not 1/3. -/
theorem timeline_rounds_entries :
    ((calculate_progression_timeline (1/3) 10 0).map
        TimelineEntry.severity_with_treatment).get? 0 = some (33/100)
    ∧ (33/100 : ℚ) ≠ 0 + (1/3) * 1 := by
  constructor
  · simp only [calculate_progression_timeline, timelineEntry, List.map_cons, List.get?]
    rw [round2]
    norm_num [round_eq]
  · norm_num

/-- C7 (amended): the projector returns exactly four entries, one per
horizon year in [1, 2, 3, 5], whose fields are the claimed formulas —
with-treatment `sev + ap·year`, without-treatment `sev + (ap/0.4)·year`,
saved diopters their difference `(ap/0.4 − ap)·year` — each rounded to two
decimal places; in particular for `ap = 0.6` and any current severity that
is a whole number of hundredths the rounding is exact: the with-treatment
increments are 0.6, 1.2, 1.8, 3.0 and the without-treatment rate is
1.5/year. -/
theorem timeline_entries_rounded (ap age sev : ℚ) :
    (calculate_progression_timeline ap age sev).map TimelineEntry.year = [1, 2, 3, 5]
    ∧ (calculate_progression_timeline ap age sev).map TimelineEntry.severity_with_treatment
        = [round2 (sev + ap * 1), round2 (sev + ap * 2),
           round2 (sev + ap * 3), round2 (sev + ap * 5)]
    ∧ (calculate_progression_timeline ap age sev).map TimelineEntry.severity_without_treatment
        = [round2 (sev + ap / (2/5) * 1), round2 (sev + ap / (2/5) * 2),
           round2 (sev + ap / (2/5) * 3), round2 (sev + ap / (2/5) * 5)]
    ∧ (calculate_progression_timeline ap age sev).map TimelineEntry.saved_diopters
        = [round2 ((ap / (2/5) - ap) * 1), round2 ((ap / (2/5) - ap) * 2),
           round2 ((ap / (2/5) - ap) * 3), round2 ((ap / (2/5) - ap) * 5)]
    ∧ ((∃ k : ℤ, sev = (k : ℚ) / 100) →
        (calculate_progression_timeline (3/5) age sev).map
            TimelineEntry.severity_with_treatment
            = [sev + 3/5, sev + 6/5, sev + 9/5, sev + 3]
        ∧ (calculate_progression_timeline (3/5) age sev).map
            TimelineEntry.severity_without_treatment
            = [sev + 3/2, sev + 3, sev + 9/2, sev + 15/2]
        ∧ (calculate_progression_timeline (3/5) age sev).map TimelineEntry.saved_diopters
            = [9/10, 9/5, 27/10, 9/2]) := by
  refine ⟨?_, ?_, ?_, ?_, ?_⟩
  · simp [calculate_progression_timeline, timelineEntry]
  · simp only [calculate_progression_timeline, timelineEntry, List.map_cons, List.map_nil]
    norm_num
  · simp only [calculate_progression_timeline, timelineEntry, List.map_cons, List.map_nil]
    norm_num
  · simp only [calculate_progression_timeline, timelineEntry, List.map_cons, List.map_nil]
    norm_num
    refine ⟨?_, ?_, ?_⟩ <;> exact congrArg round2 (by ring)
  · rintro ⟨k, rfl⟩
    refine ⟨?_, ?_, ?_⟩ <;>
      simp only [calculate_progression_timeline, timelineEntry, List.map_cons, List.map_nil] <;>
      norm_num <;>
      refine ⟨?_, ?_, ?_, ?_⟩
    · exact round2_cent _ ⟨k + 60, by push_cast; ring⟩
    · exact round2_cent _ ⟨k + 120, by push_cast; ring⟩
    · exact round2_cent _ ⟨k + 180, by push_cast; ring⟩
    · exact round2_cent _ ⟨k + 300, by push_cast; ring⟩
    · exact round2_cent _ ⟨k + 150, by push_cast; ring⟩
    · exact round2_cent _ ⟨k + 300, by push_cast; ring⟩
    · exact round2_cent _ ⟨k + 450, by push_cast; ring⟩
    · exact round2_cent _ ⟨k + 750, by push_cast; ring⟩
    · exact round2_cent _ ⟨90, by norm_num⟩
    · exact round2_cent _ ⟨180, by norm_num⟩
    · exact round2_cent _ ⟨270, by norm_num⟩
    · exact round2_cent _ ⟨450, by norm_num⟩

/-- C7 witness: the amended theorem applied at rate 0.6, age 10 and current
severity 2 (= 200/100). -/
theorem timeline_entries_rounded_witness :
    (calculate_progression_timeline (3/5) 10 2).map TimelineEntry.severity_with_treatment
        = [2 + 3/5, 2 + 6/5, 2 + 9/5, 2 + 3]
    ∧ (calculate_progression_timeline (3/5) 10 2).map TimelineEntry.severity_without_treatment
        = [2 + 3/2, 2 + 3, 2 + 9/2, 2 + 15/2]
    ∧ (calculate_progression_timeline (3/5) 10 2).map TimelineEntry.saved_diopters
        = [9/10, 9/5, 27/10, 9/2] :=
  (timeline_entries_rounded (3/5) 10 2).2.2.2.2 ⟨200, by norm_num⟩

/-! ## Claim C3: scorer thresholds versus the training rule -/

/-- C3 counterexample: at 3.5 screen hours the scorer contributes 0.5
(thresholds 4 and 3) while the training rule contributes 1 (threshold 3
alone); at 24.2 mm axial length the scorer contributes 1 (extra 24.0
threshold) while the training rule contributes 0 — so the scorer is not
decided against exactly the training rule's thresholds. -/
theorem scorer_thresholds_differ_from_rule :
    screenScore (7/2) = 1/2 ∧ screenRiskTerm (7/2) = 1 ∧ ((1 : ℚ)/2 ≠ 1)
    ∧ axialScore (121/5) = 1 ∧ axialRiskTerm (121/5) = 0 ∧ ((1 : ℚ) ≠ 0) := by
  norm_num [screenScore, screenRiskTerm, axialScore, axialRiskTerm]

/-- C3 (amended): the age (cut-offs 10 and 12), genetics (encoded 0/1/2) and
severity (1.5 and 3) contributions of the scorer agree with the training
rule's terms everywhere; the axial-length contribution agrees only outside
(24, 24.5] — the scorer adds an extra 24.0 threshold scoring 1 where the
rule scores 0; the screen-time contribution agrees only outside (3, 4] —
the scorer scores 0.5 there and 1 only above 4, while the rule scores 1
above 3; outdoor time uses the threshold 2 in both, but as a +1 penalty
below 2 in the scorer versus a −1 credit above 2 in the rule; the
compliance contribution (thresholds 0.75 and 0.9) has no counterpart in the
rule at all. -/
theorem scorer_rule_threshold_agreement (a m s ax sh oh : ℚ) :
    (ageScore a = ageRiskTerm a)
    ∧ (m = 0 ∨ m = 1 ∨ m = 2 → geneticsScore m = m)
    ∧ (severityScore s = severityRiskTerm s)
    ∧ (ax ≤ 24 ∨ 49/2 < ax → axialScore ax = axialRiskTerm ax)
    ∧ (24 < ax ∧ ax ≤ 49/2 → axialScore ax = 1 ∧ axialRiskTerm ax = 0)
    ∧ (sh ≤ 3 ∨ 4 < sh → screenScore sh = screenRiskTerm sh)
    ∧ (3 < sh ∧ sh ≤ 4 → screenScore sh = 1/2 ∧ screenRiskTerm sh = 1)
    ∧ (oh < 2 → outdoorScore oh = 1 ∧ outdoorRiskTerm oh = 0)
    ∧ (2 < oh → outdoorScore oh = 0 ∧ outdoorRiskTerm oh = 1) := by
  refine ⟨?_, ?_, ?_, ?_, ?_, ?_, ?_, ?_, ?_⟩
  · unfold ageScore ageRiskTerm
    rcases lt_or_le a 10 with h1 | h1
    · rw [if_pos h1, if_pos h1, if_neg (by rintro ⟨h2, h3⟩; linarith)]
      norm_num
    · rcases lt_or_le a 12 with h2 | h2
      · rw [if_neg (not_lt.2 h1), if_pos h2, if_neg (not_lt.2 h1), if_pos ⟨h1, h2⟩]
        norm_num
      · rw [if_neg (not_lt.2 h1), if_neg (not_lt.2 h2), if_neg (not_lt.2 h1),
          if_neg (by rintro ⟨h3, h4⟩; linarith)]
        norm_num
  · rintro (rfl | rfl | rfl) <;> norm_num [geneticsScore]
  · unfold severityScore severityRiskTerm
    rcases lt_or_le 3 s with h1 | h1
    · rw [if_pos h1, if_pos h1, if_neg (by rintro ⟨h2, h3⟩; linarith)]
      norm_num
    · rcases lt_or_le (3/2 : ℚ) s with h2 | h2
      · rw [if_neg (not_lt.2 h1), if_pos h2, if_neg (not_lt.2 h1), if_pos ⟨h2, h1⟩]
        norm_num
      · rw [if_neg (not_lt.2 h1), if_neg (not_lt.2 h2), if_neg (not_lt.2 h1),
          if_neg (by rintro ⟨h3, h4⟩; linarith)]
        norm_num
  · rintro (h | h) <;> unfold axialScore axialRiskTerm <;>
      split_ifs <;> norm_num <;> linarith
  · rintro ⟨h1, h2⟩
    unfold axialScore axialRiskTerm
    split_ifs <;> norm_num <;> linarith
  · rintro (h | h) <;> unfold screenScore screenRiskTerm <;>
      split_ifs <;> norm_num <;> linarith
  · rintro ⟨h1, h2⟩
    unfold screenScore screenRiskTerm
    split_ifs <;> norm_num <;> linarith
  · intro h
    unfold outdoorScore outdoorRiskTerm
    split_ifs <;> norm_num <;> linarith
  · intro h
    unfold outdoorScore outdoorRiskTerm
    split_ifs <;> norm_num <;> linarith

/-- C3 witness: the amended theorem applied at age 9, one myopic parent,
severity 2 D, axial length 24 mm, 5 h screen and 1 h outdoor. -/
theorem scorer_rule_threshold_agreement_witness :
    (ageScore 9 = ageRiskTerm 9)
    ∧ geneticsScore 1 = 1
    ∧ (severityScore 2 = severityRiskTerm 2)
    ∧ axialScore 24 = axialRiskTerm 24
    ∧ screenScore 5 = screenRiskTerm 5
    ∧ (outdoorScore 1 = 1 ∧ outdoorRiskTerm 1 = 0) :=
  ⟨(scorer_rule_threshold_agreement 9 1 2 24 5 1).1,
   (scorer_rule_threshold_agreement 9 1 2 24 5 1).2.1 (Or.inr (Or.inl rfl)),
   (scorer_rule_threshold_agreement 9 1 2 24 5 1).2.2.1,
   (scorer_rule_threshold_agreement 9 1 2 24 5 1).2.2.2.1 (Or.inl (by norm_num)),
   (scorer_rule_threshold_agreement 9 1 2 24 5 1).2.2.2.2.2.1 (Or.inr (by norm_num)),
   (scorer_rule_threshold_agreement 9 1 2 24 5 1).2.2.2.2.2.2.2.1 (by norm_num)⟩

/-! ## Claim C9: monotonicity of the scorer's total -/

/-- C9: holding all other factors fixed, the scorer's total is non-decreasing
as age decreases below 12, non-decreasing as severity increases, and
non-decreasing as axial length increases. -/
theorem risk_total_monotone (m ax sh oh c age sev : ℚ) :
    (∀ a1 a2 : ℚ, a1 ≤ a2 → a2 < 12 →
      (calculate_risk_factors a2 m sev ax sh oh c).total_score
        ≤ (calculate_risk_factors a1 m sev ax sh oh c).total_score)
    ∧ (∀ s1 s2 : ℚ, s1 ≤ s2 →
      (calculate_risk_factors age m s1 ax sh oh c).total_score
        ≤ (calculate_risk_factors age m s2 ax sh oh c).total_score)
    ∧ (∀ x1 x2 : ℚ, x1 ≤ x2 →
      (calculate_risk_factors age m sev x1 sh oh c).total_score
        ≤ (calculate_risk_factors age m sev x2 sh oh c).total_score) := by
  refine ⟨?_, ?_, ?_⟩
  · intro a1 a2 h _
    rw [total_score_eq, total_score_eq]
    have := ageScore_antitone h
    linarith
  · intro s1 s2 h
    rw [total_score_eq, total_score_eq]
    have := severityScore_mono h
    linarith
  · intro x1 x2 h
    rw [total_score_eq, total_score_eq]
    have := axialScore_mono h
    linarith

/-- C9 witness: the monotonicity theorem applied at concrete inputs —
lowering age 11 → 9, raising severity 1 → 4 and axial length 24 → 25. -/
theorem risk_total_monotone_witness :
    ((calculate_risk_factors 11 1 2 24 3 2 1).total_score
      ≤ (calculate_risk_factors 9 1 2 24 3 2 1).total_score)
    ∧ ((calculate_risk_factors 10 1 1 24 3 2 1).total_score
      ≤ (calculate_risk_factors 10 1 4 24 3 2 1).total_score)
    ∧ ((calculate_risk_factors 10 1 2 24 3 2 1).total_score
      ≤ (calculate_risk_factors 10 1 2 25 3 2 1).total_score) :=
  ⟨(risk_total_monotone 1 24 3 2 1 10 2).1 9 11 (by norm_num) (by norm_num),
   (risk_total_monotone 1 24 3 2 1 10 2).2.1 1 4 (by norm_num),
   (risk_total_monotone 1 24 3 2 1 10 2).2.2 24 25 (by norm_num)⟩

/-! ## Claim C2: clamp invariants at inference -/

/-- A fitted-model state whose regressor returns 3 on every scaled input,
as a scikit-learn gradient-boosting regressor may: nothing in the inference
path constrains its output. -/
def clampFreeModel : FittedModel :=
  { scaler := fun v => v
    classifier := { classes := [0, 1, 2], proba := fun _ => [1, 0, 0], predCat := fun _ => 0 }
    regressor := fun _ => 3 }

/-- C2 counterexample: the inference path never clamps the regressor output
— `predict` only rounds it — so with a fitted regressor returning 3 the
returned point-estimate progression rate is 3, outside [0, 2].  (The [0, 2]
clamp exists only in the training-label derivation `_estimate_progression`.) -/
theorem progression_rate_unclamped :
    (model_predict clampFreeModel (List.replicate 15 0)).map
        PredictionOut.estimated_progression = some 3
    ∧ ¬ ((3 : ℚ) ≤ 2) := by
  constructor
  · simp only [model_predict, clampFreeModel, risk_labels, List.get?, Option.map_some]
    norm_num [round2, round_eq]
  · norm_num

/-- C2 (amended): the serve-time compliance score always lies in [0, 1], and
the training-label progression rate produced by `_estimate_progression` is
clamped to [0, 2]; but the progression rate in the returned result is the
raw regressor output rounded to two decimals, with no clamp on the
inference path — it lies in [0, 2] only when the regressor output does. -/
theorem compliance_clamped_rate_round_only :
    (∀ w : ℚ, 0 ≤ serveCompliance w ∧ serveCompliance w ≤ 1)
    ∧ (∀ (m : FittedModel) (x : List ℚ) (out : PredictionOut),
        model_predict m x = some out →
          out.estimated_progression = round2 (m.regressor (m.scaler x)))
    ∧ (∀ age mp sh oh cs : ℚ,
        0 ≤ estimate_progression age mp sh oh cs
          ∧ estimate_progression age mp sh oh cs ≤ 2) := by
  refine ⟨fun w => ⟨le_min (le_max_right _ _) zero_le_one, min_le_right _ _⟩, ?_, ?_⟩
  · intro m x out h
    rw [model_predict] at h
    split at h
    · cases h
      rfl
    · exact Option.noConfusion h
  · intro age mp sh oh cs
    exact ⟨le_min (le_max_right _ _) (by norm_num), min_le_right _ _⟩

/-- A benign fitted model used to witness the amended C2 theorem. -/
def benignModel : FittedModel :=
  { scaler := fun v => v
    classifier := { classes := [0, 1, 2], proba := fun _ => [1/2, 1/4, 1/4],
                    predCat := fun _ => 1 }
    regressor := fun _ => 1 }

/-- The concrete prediction returned by `benignModel` on the empty feature
list. -/
def benignOut : PredictionOut :=
  { risk_category := "Medium Risk".toList
    risk_score := 1
    prob_low := 1/2
    prob_medium := 1/4
    prob_high := 1/4
    estimated_progression := 1
    benefit := { without_stellest := 5/2, with_stellest := 1, reduction_percentage := 60 } }

/-- C2 witness: the amended theorem applied at wearing-hours 18, at the
benign concrete model, and at concrete training-label inputs. -/
theorem compliance_clamped_rate_round_only_witness :
    (0 ≤ serveCompliance 18 ∧ serveCompliance 18 ≤ 1)
    ∧ benignOut.estimated_progression
        = round2 (benignModel.regressor (benignModel.scaler []))
    ∧ (0 ≤ estimate_progression 9 2 5 1 1 ∧ estimate_progression 9 2 5 1 1 ≤ 2) :=
  ⟨compliance_clamped_rate_round_only.1 18,
   compliance_clamped_rate_round_only.2.1 benignModel [] benignOut (by
      simp only [model_predict, benignModel, risk_labels, calculate_stellest_benefit,
        List.getLast?, List.get?]
      norm_num [round2, round1, round_eq, benignOut]),
   compliance_clamped_rate_round_only.2.2 9 2 5 1 1⟩

/-! ## Claim C10: predict requires all three risk classes -/

/-- C10: `predict` reads the probability vector at the fixed indices 0, 1, 2
and the label list at the predicted category; given that the fitted
classifier exposes one probability per trained class and predicts one of
the rule categories 0/1/2, a result is returned exactly when three classes
were present at fit time — with fewer classes the index-2 lookup fails out
of range (a raised `IndexError`, modelled as `none`) instead of returning a
renormalised result. -/
theorem predict_requires_three_classes (m : FittedModel) (x : List ℚ)
    (hlen : (m.classifier.proba (m.scaler x)).length = m.classifier.classes.length)
    (hcat : m.classifier.predCat (m.scaler x) < 3) :
    (m.classifier.classes.length = 3 → (model_predict m x).isSome)
    ∧ (m.classifier.classes.length < 3 → model_predict m x = none) := by
  constructor
  · intro h3
    have hplen : (m.classifier.proba (m.scaler x)).length = 3 := by rw [hlen, h3]
    have h0 : (m.classifier.proba (m.scaler x)).get? 0
        = some ((m.classifier.proba (m.scaler x)).get ⟨0, by rw [hplen]; norm_num⟩) :=
      List.get?_eq_get _
    have h1 : (m.classifier.proba (m.scaler x)).get? 1
        = some ((m.classifier.proba (m.scaler x)).get ⟨1, by rw [hplen]; norm_num⟩) :=
      List.get?_eq_get _
    have h2 : (m.classifier.proba (m.scaler x)).get? 2
        = some ((m.classifier.proba (m.scaler x)).get ⟨2, by rw [hplen]; norm_num⟩) :=
      List.get?_eq_get _
    have hlab : risk_labels.get? (m.classifier.predCat (m.scaler x))
        = some (risk_labels.get ⟨m.classifier.predCat (m.scaler x), by
            simpa [risk_labels] using hcat⟩) :=
      List.get?_eq_get _
    simp only [model_predict, h0, h1, h2, hlab, Option.isSome_some]
  · intro hlt
    have h2 : (m.classifier.proba (m.scaler x)).get? 2 = none := by
      rw [List.get?_eq_none]
      omega
    simp only [model_predict, h2]
    rcases risk_labels.get? (m.classifier.predCat (m.scaler x)) with _ | lab <;>
      rcases (m.classifier.proba (m.scaler x)).get? 0 with _ | p0 <;>
      rcases (m.classifier.proba (m.scaler x)).get? 1 with _ | p1 <;>
      rfl

/-- A concrete fitted model with all three classes, witnessing C10. -/
def threeClassModel : FittedModel :=
  { scaler := fun v => v
    classifier := { classes := [0, 1, 2], proba := fun _ => [1/3, 1/3, 1/3],
                    predCat := fun _ => 2 }
    regressor := fun _ => 1 }

/-- C10 witness: the theorem applied to the concrete three-class model. -/
theorem predict_requires_three_classes_witness :
    (model_predict threeClassModel []).isSome :=
  (predict_requires_three_classes threeClassModel [] rfl (by decide)).1 rfl

/-! ## Claim C8: the field parsers are total with per-field defaults -/

/-- C8: every field parser is total by construction — for any raw input it
returns a numeric value or the missing-value marker (never raises; a Python
exception would have no value to return).  The diopter parser returns 0.0
for a literal zero, a missing input, or an unparsable input (while parsing
`DS`/`DC`-suffixed prescriptions normally), and the axial-length parser
returns the missing marker for missing or unparsable input (while stripping
an `MM` suffix normally). -/
theorem field_parsers_total_with_defaults :
    (∀ v, extract_age v = none ∨ ∃ q, extract_age v = some q)
    ∧ (∀ v, extract_hours v = none ∨ ∃ q, extract_hours v = some q)
    ∧ (∀ v, extract_axial_length v = none ∨ ∃ q, extract_axial_length v = some q)
    ∧ (∀ v, ∃ q, extract_diopters v = q)
    ∧ extract_diopters .missing = 0
    ∧ extract_diopters (.num 0) = 0
    ∧ extract_diopters (.str ("N/A".toList)) = 0
    ∧ extract_diopters (.str ("-2.50 DS".toList)) = -5/2
    ∧ extract_diopters (.str ("-3.25DC".toList)) = -13/4
    ∧ extract_axial_length .missing = none
    ∧ extract_axial_length (.str ("N/A".toList)) = none
    ∧ extract_axial_length (.str ("24.5MM".toList)) = some (49/2)
    ∧ extract_age (.str ("??".toList)) = none
    ∧ extract_hours (.str ("??".toList)) = none := by
  refine ⟨?_, ?_, ?_, fun v => ⟨_, rfl⟩, rfl, by norm_num [extract_diopters],
    ?_, ?_, ?_, rfl, ?_, ?_, ?_, ?_⟩
  · intro v
    rcases h : extract_age v with _ | q
    · exact Or.inl rfl
    · exact Or.inr ⟨q, rfl⟩
  · intro v
    rcases h : extract_hours v with _ | q
    · exact Or.inl rfl
    · exact Or.inr ⟨q, rfl⟩
  · intro v
    rcases h : extract_axial_length v with _ | q
    · exact Or.inl rfl
    · exact Or.inr ⟨q, rfl⟩
  · have h : dioptersRep? ("N/A".toList) = none := by decide
    rw [extract_diopters, h]
    rfl
  · have h : dioptersRep? ("-2.50 DS".toList) = some ⟨true, 250, 2, false, 0⟩ := by decide
    rw [extract_diopters, h]
    norm_num [ratOfRep]
  · have h : dioptersRep? ("-3.25DC".toList) = some ⟨true, 325, 2, false, 0⟩ := by decide
    rw [extract_diopters, h]
    norm_num [ratOfRep]
  · have h : axialRep? ("N/A".toList) = none := by decide
    rw [extract_axial_length, h]
    rfl
  · have h : axialRep? ("24.5MM".toList) = some ⟨false, 245, 1, false, 0⟩ := by decide
    rw [extract_axial_length, h]
    norm_num [ratOfRep]
  · have h : ageRep? ("??".toList) = none := by decide
    rw [extract_age, h]
    rfl
  · have h : hoursRep? ("??".toList) = none := by decide
    rw [extract_hours, h]
    rfl

/-! ## Claim C1: train/serve feature-vector agreement -/

/-- C1 (amended): given a raw record and a patient input whose fields parse
to the same numbers (the "equivalent raw record"), the training feature
builder and the serve-time handler produce the same 15-element vector in
the same order for every derived numeric feature; the gender and
parental-myopia encodings, however, agree only on restricted token sets —
gender on the exact map keys M/F/Male/Female and parental myopia on the
exact tokens One/Both — and disagree elsewhere (see the counterexample). -/
theorem train_serve_feature_agreement (r : RawRecord) (p : PatientData)
    (hage : extract_age r.age = some p.age)
    (hdiag : extract_age r.age_diagnosis = some p.age_diagnosis)
    (hgen : r.gender = RawValue.str p.gender)
    (hgtok : p.gender = "M".toList ∨ p.gender = "F".toList ∨ p.gender = "Male".toList
      ∨ p.gender = "Female".toList)
    (hpar : r.myopic_parents = RawValue.str p.myopic_parents)
    (hptok : p.myopic_parents = "One".toList ∨ p.myopic_parents = "Both".toList)
    (hout : extract_hours r.outdoor_time = some p.outdoor_hours)
    (hscr : extract_hours r.screen_time = some p.screen_hours)
    (hctl : r.myopia_control.isMissing = !p.had_myopia_control)
    (hres : extract_diopters r.re_spherical = p.re_spherical)
    (hles : extract_diopters r.le_spherical = p.le_spherical)
    (hrec : extract_diopters r.re_cylinder = p.re_cylinder)
    (hlec : extract_diopters r.le_cylinder = p.le_cylinder)
    (hrax : extract_axial_length r.re_axial_length = some p.re_axial_length)
    (hlax : extract_axial_length r.le_axial_length = some p.le_axial_length)
    (hwear : extract_hours r.wearing_time = some p.wearing_hours) :
    processRow r = (serveFeatures p).map some := by
  have hg : trainGenderEncode r.gender = some (serveGenderEncode p.gender) := by
    rw [hgen]
    rcases hgtok with h | h | h | h <;> rw [h] <;> decide
  have hp : encode_myopic_parents r.myopic_parents = serveParentsEncode p.myopic_parents := by
    rw [hpar]
    rcases hptok with h | h <;> rw [h] <;> decide
  simp only [processRow, serveFeatures, hage, hdiag, hout, hscr, hres, hles, hrec, hlec,
    hrax, hlax, hwear, hg, hp, hctl, omap2, List.map_cons, List.map_nil, serveCompliance]
  cases p.had_myopia_control <;> simp

/-- The raw-record half of the C1 counterexample: a record whose every field
parses to the corresponding field of `pC`, with parental history "None". -/
def rC : RawRecord :=
  { age := .num 10, age_diagnosis := .num 8, gender := .str ("M".toList),
    myopic_parents := .str ("None".toList), outdoor_time := .num 2, screen_time := .num 3,
    myopia_control := .missing, re_spherical := .num (-2), le_spherical := .num (-2),
    re_cylinder := .num 0, le_cylinder := .num 0, re_axial_length := .num 24,
    le_axial_length := .num 24, wearing_time := .num 12 }

/-- The patient-input half of the C1 counterexample, equivalent to `rC`. -/
def pC : PatientData :=
  { age := 10, gender := "M".toList, age_diagnosis := 8, myopic_parents := "None".toList,
    outdoor_hours := 2, screen_hours := 3, had_myopia_control := false,
    re_spherical := -2, re_cylinder := 0, le_spherical := -2, le_cylinder := 0,
    re_axial_length := 24, le_axial_length := 24, wearing_hours := 12 }

/-- C1 counterexample: on the equivalent raw record/patient input with
parental history "None", the training encoder gives 1 (substring "ONE")
while the serve-time encoder gives 0 (exact dictionary lookup), so position
5 of the feature vector — and hence the vector — differs between the
training path and the inference path. -/
theorem train_serve_encoders_disagree :
    (processRow rC).get? 4 = some (some 1)
    ∧ ((serveFeatures pC).map some).get? 4 = some (some 0)
    ∧ processRow rC ≠ (serveFeatures pC).map some := by
  have h1 : encode_myopic_parents (RawValue.str ['N', 'o', 'n', 'e']) = 1 := by decide
  have h2 : serveParentsEncode ['N', 'o', 'n', 'e'] = 0 := by decide
  refine ⟨?_, ?_, ?_⟩
  · simp [processRow, rC, h1]
  · simp [serveFeatures, pC, h2]
  · intro hEq
    have g1 : (processRow rC).get? 4 = some (some 1) := by simp [processRow, rC, h1]
    have g2 : ((serveFeatures pC).map some).get? 4 = some (some 0) := by
      simp [serveFeatures, pC, h2]
    rw [hEq, g2] at g1
    have : (0 : ℚ) = 1 := by injection (Option.some.inj g1)
    norm_num at this

/-- The raw-record half of the C1 witness, with gender "F", parental history
"Both" and a recorded myopia-control entry. -/
def rW : RawRecord :=
  { age := .num 11, age_diagnosis := .num 7, gender := .str ("F".toList),
    myopic_parents := .str ("Both".toList), outdoor_time := .num 1, screen_time := .num 5,
    myopia_control := .num 1, re_spherical := .num (-3), le_spherical := .num (-2),
    re_cylinder := .num (-1/2), le_cylinder := .num 0, re_axial_length := .num 25,
    le_axial_length := .num 24, wearing_time := .num 10 }

/-- The patient-input half of the C1 witness, equivalent to `rW`. -/
def pW : PatientData :=
  { age := 11, gender := "F".toList, age_diagnosis := 7, myopic_parents := "Both".toList,
    outdoor_hours := 1, screen_hours := 5, had_myopia_control := true,
    re_spherical := -3, re_cylinder := -1/2, le_spherical := -2, le_cylinder := 0,
    re_axial_length := 25, le_axial_length := 24, wearing_hours := 10 }

/-- C1 witness: the amended agreement theorem applied to the concrete
equivalent pair `rW`/`pW`. -/
theorem train_serve_feature_agreement_witness :
    processRow rW = (serveFeatures pW).map some :=
  train_serve_feature_agreement rW pW rfl rfl rfl (Or.inr (Or.inl rfl)) rfl
    (Or.inr rfl) rfl rfl rfl (by norm_num [extract_diopters, rW, pW])
    (by norm_num [extract_diopters, rW, pW]) (by norm_num [extract_diopters, rW, pW])
    (by norm_num [extract_diopters, rW, pW]) rfl rfl rfl
